import Mathlib

/-!
# vcpustat: sampling, differencing and classification of vCPU usage

A shallow embedding of `vcpustat.go`.  Go maps are association lists (the list
order stands for the unspecified iteration order of `range` over a map), `int64`
and `int` values are integers with explicit wrap-around where an operation can
overflow, and everything the program writes with `log.Printf` is collected, in
order, as a list of structured events.
-/

namespace Vcpustat

/-- The record `VcpuInfo` of the source: owning process id and cumulative usage. -/
structure VcpuInfo where
  Pid : Int
  CpuUsage : Int
  deriving DecidableEq, Repr

/-- A `map[string]VcpuInfo`, as an association list. -/
abbrev Snapshot := List (String × VcpuInfo)

/-- Outcome of opening `/proc/<pid>` and calling `Stat` on it.  `age` carries
`int64(time.Since(info.ModTime()).Seconds())`. -/
inductive ProcStat where
  | openErr
  | statErr
  | age (seconds : Int)
  deriving DecidableEq, Repr

/-- The part of the host the program reads. -/
structure Host where
  /-- Result of `filepath.Glob`, `none` on a malformed pattern. -/
  glob : String → Option (List String)
  /-- Result of `ioutil.ReadFile`, `none` on an error. -/
  readFile : String → Option String
  /-- Result of `os.OpenFile` followed by `Stat`. -/
  procStat : String → ProcStat

/-- What the program emits: one constructor per `log.Printf`/`log.Println`
call site, with the values that are formatted into the line, and
`triggerPanic` for one call of the function of that name (the write of `c` to
`/proc/sysrq-trigger`, which crashes the host, or the line it logs when that
file cannot be opened). -/
inductive Event where
  | readErr (file : String)
  | parseErr (text : String)
  | cantFindPid (machineName : String)
  | cantFindProc (machineName : String)
  | cantStat (machineName : String)
  | machine (machineName : String) (machineTime : Int) (machineSettled : Bool)
  | pidChanged (vcpu : String) (startPid endPid : Int)
  | rolledOver (vcpu : String) (startUsage endUsage : Int)
  | panicLine (vcpu : String) (diff : Int)
  | triggerPanic
  | warnLine (vcpu : String) (diff : Int)
  | plainLine (vcpu : String) (diff : Int)
  | disappeared (vcpu : String)
  deriving DecidableEq, Repr

/-! ## Library functions the program calls -/

/-- Two's complement reduction of an integer to `int64`. -/
def wrapInt64 (x : Int) : Int :=
  (x + 2 ^ 63) % 2 ^ 64 - 2 ^ 63

/-- Whether an integer is representable with `bits` bits (1 or more), two's
complement. -/
def fitsInt (bits : Nat) (x : Int) : Prop :=
  -(2 ^ (bits - 1) : Int) ≤ x ∧ x < (2 ^ (bits - 1) : Int)

instance (bits : Nat) (x : Int) : Decidable (fitsInt bits x) := by
  unfold fitsInt; infer_instance

/-- Size of Go's `int` on the 64-bit hosts the program runs on. -/
def intSize : Nat := 64

/-- Value of an ASCII decimal digit. -/
def digitVal (c : Char) : Option Nat :=
  if 48 ≤ c.toNat ∧ c.toNat ≤ 57 then some (c.toNat - 48) else none

/-- The digit loop of `strconv.ParseUint` in base 10: every character must be
a decimal digit. -/
def parseLoop : List Char → Nat → Option Nat
  | [], n => some n
  | c :: cs, n =>
    match digitVal c with
    | some d => parseLoop cs (n * 10 + d)
    | none => none

/-- Base 10 `strconv.ParseInt(s, 10, bitSize)`: an optional sign, then at least
one digit, and the value has to fit in `bitSize` bits; `none` is an error. -/
def ParseInt (s : String) (bitSize : Nat) : Option Int :=
  match s.data with
  | [] => none
  | c :: cs =>
    let neg := decide (c = '-')
    let ds := if c = '-' ∨ c = '+' then cs else c :: cs
    match ds with
    | [] => none
    | d :: ds' =>
      match parseLoop (d :: ds') 0 with
      | none => none
      | some n =>
        let v : Int := if neg then -(n : Int) else (n : Int)
        if fitsInt bitSize v then some v else none

/-- The function `strconv.Atoi`: `ParseInt` at the size of `int`. -/
def Atoi (s : String) : Option Int :=
  ParseInt s intSize

/-- The character of a decimal digit. -/
def digitChar (d : Nat) : Char :=
  Char.ofNat (48 + d)

/-- The loop of `strconv.formatBits` in base 10: emit the last digit, divide
by ten, until one digit is left.  The first argument bounds the number of
turns; any bound that is at least `u` is never reached. -/
def formatLoop : Nat → Nat → List Char → List Char
  | 0, u, acc => digitChar (u % 10) :: acc
  | fuel + 1, u, acc =>
    if u < 10 then digitChar u :: acc
    else formatLoop fuel (u / 10) (digitChar (u % 10) :: acc)

/-- The function `strconv.Itoa`. -/
def Itoa (i : Int) : String :=
  if i < 0 then String.mk ('-' :: formatLoop i.natAbs i.natAbs [])
  else String.mk (formatLoop i.natAbs i.natAbs [])

/-- The function `strings.TrimLeft`: drop the leading characters that occur in
`cutset`. -/
def TrimLeft (s cutset : String) : String :=
  String.mk (s.data.dropWhile (fun c => decide (c ∈ cutset.data)))

/-- The expression `strings.Split(s, "\n")[0]`: the text before the first
newline. -/
def firstLine (s : String) : String :=
  String.mk (s.data.takeWhile (fun c => decide (c ≠ '\n')))

/-- The function `path.Base`: last element of a slash-separated path. -/
def pathBase (p : String) : String :=
  if p.data = [] then "."
  else
    let stripped := p.data.reverse.dropWhile (fun c => decide (c = '/'))
    let last := stripped.takeWhile (fun c => decide (c ≠ '/'))
    if last = [] then "/" else String.mk last.reverse

/-- The function `sort.Ints`: ascending order. -/
def sortInts (xs : List Int) : List Int :=
  xs.insertionSort (fun a b => a ≤ b)

/-- Map lookup `m[k]` with the `ok` flag. -/
def Snapshot.get? (m : Snapshot) (k : String) : Option VcpuInfo :=
  match m with
  | [] => none
  | (k', v) :: rest => if k' = k then some v else Snapshot.get? rest k

/-- Map lookup `m[k]` without the flag: the zero value on a missing key. -/
def Snapshot.get (m : Snapshot) (k : String) : VcpuInfo :=
  match Snapshot.get? m k with
  | some v => v
  | none => ⟨0, 0⟩

/-- Map assignment `m[k] = v`. -/
def Snapshot.set (m : Snapshot) (k : String) (v : VcpuInfo) : Snapshot :=
  match m with
  | [] => [(k, v)]
  | (k', v') :: rest => if k' = k then (k, v) :: rest else (k', v') :: Snapshot.set rest k v

/-! ## The program -/

/-- Body of the loop of `getVcpusInfo`: read and parse the two files of one
vCPU directory; on any failure log it and leave the map as it is. -/
def readVcpu (host : Host) (acc : Snapshot × List Event) (vcpu : String) :
    Snapshot × List Event :=
  let name := pathBase vcpu
  match host.readFile (vcpu ++ "/tasks") with
  | none => (acc.1, acc.2 ++ [Event.readErr (vcpu ++ "/tasks")])
  | some pidBytes =>
    match host.readFile (vcpu ++ "/cpuacct.usage") with
    | none => (acc.1, acc.2 ++ [Event.readErr (vcpu ++ "/cpuacct.usage")])
    | some usageBytes =>
      match ParseInt (firstLine pidBytes) 64 with
      | none => (acc.1, acc.2 ++ [Event.parseErr (firstLine pidBytes)])
      | some pid =>
        match ParseInt (firstLine usageBytes) 64 with
        | none => (acc.1, acc.2 ++ [Event.parseErr (firstLine usageBytes)])
        | some usage => (Snapshot.set acc.1 name ⟨pid, usage⟩, acc.2)

/-- The function `getVcpusInfo`; `none` is the `log.Fatal` exit. -/
def getVcpusInfo (host : Host) (machine : String) : Option (Snapshot × List Event) :=
  match host.glob (machine ++ "/vcpu*") with
  | none => none
  | some vcpus => some (vcpus.foldl (readVcpu host) ([], []))

/-- First loop of `compareVcpuInfo`: the numbers parsed from the names of the
start snapshot, names that do not parse being skipped. -/
def parseVcpuNums (startVcpuInfo : Snapshot) : List Int :=
  startVcpuInfo.filterMap (fun kv => Atoi (TrimLeft kv.1 "vcpu"))

/-- Body of the second loop of `compareVcpuInfo`, for one value of the loop
variable `vcpunum`. -/
def compareVcpu (startVcpuInfo endVcpuInfo : Snapshot)
    (printlevel marklevel paniclevel : Int) (machineSettled : Bool) (vcpunum : Nat) :
    List Event :=
  let vcpu := "vcpu" ++ Itoa (vcpunum : Int)
  let startInfo := Snapshot.get startVcpuInfo vcpu
  match Snapshot.get? endVcpuInfo vcpu with
  | some endInfo =>
    if endInfo.Pid ≠ startInfo.Pid then
      [Event.pidChanged vcpu startInfo.Pid endInfo.Pid]
    else if endInfo.CpuUsage < startInfo.CpuUsage then
      [Event.rolledOver vcpu startInfo.CpuUsage endInfo.CpuUsage]
    else
      let diff := wrapInt64 (endInfo.CpuUsage - startInfo.CpuUsage)
      if machineSettled = true ∧ paniclevel ≠ -1 ∧ diff ≤ paniclevel then
        [Event.panicLine vcpu diff, Event.triggerPanic]
      else if machineSettled = true ∧ marklevel ≠ -1 ∧ diff ≤ marklevel then
        [Event.warnLine vcpu diff]
      else if printlevel = -1 ∨ diff ≤ printlevel then
        [Event.plainLine vcpu diff]
      else
        []
  | none => [Event.disappeared vcpu]

/-- The function `compareVcpuInfo`.  The second loop is
`for vcpunum := range(vcpunums)`, whose single loop variable runs over the
indices `0 .. len(vcpunums) - 1` of the sorted slice. -/
def compareVcpuInfo (host : Host) (machinePath : String)
    (startVcpuInfo endVcpuInfo : Snapshot)
    (printlevel marklevel paniclevel settleTime : Int) : List Event :=
  let machineName := pathBase machinePath
  match host.readFile (machinePath ++ "/emulator/tasks") with
  | none => [Event.cantFindPid machineName]
  | some machinePidBytes =>
    let machinePid := firstLine machinePidBytes
    match host.procStat ("/proc/" ++ machinePid) with
    | ProcStat.openErr => [Event.cantFindProc machineName]
    | ProcStat.statErr => [Event.cantStat machineName]
    | ProcStat.age machineTime =>
      let machineSettled := decide (machineTime ≥ settleTime)
      let vcpunums := sortInts (parseVcpuNums startVcpuInfo)
      Event.machine machineName machineTime machineSettled ::
        (List.range vcpunums.length).flatMap
          (compareVcpu startVcpuInfo endVcpuInfo printlevel marklevel paniclevel
            machineSettled)

/-- Body of the second loop of `main`: take the end snapshot of one machine and
compare it with the start snapshot kept for it. -/
def classifyMachine (host : Host) (machine : String) (startVcpuInfo : Snapshot)
    (printlevel marklevel paniclevel settletime : Int) : Option (List Event) :=
  match getVcpusInfo host machine with
  | none => none
  | some (endVcpuInfo, logged) =>
    some (logged ++ compareVcpuInfo host machine startVcpuInfo endVcpuInfo
      printlevel marklevel paniclevel settletime)

/-! ## Reading the output -/

/-- The name `"vcpu" + strconv.Itoa(i)` built in the second loop. -/
def vcpuName (i : Nat) : String :=
  "vcpu" ++ Itoa (i : Int)

/-- The names visited by the second loop of `compareVcpuInfo`, in order. -/
def visited (startVcpuInfo : Snapshot) : List String :=
  (List.range (sortInts (parseVcpuNums startVcpuInfo)).length).map vcpuName

/-- A line tagged `(PANIC)`. -/
def Event.isPanic : Event → Bool
  | Event.panicLine _ _ => true
  | _ => false

/-- A line tagged `(WARN)`. -/
def Event.isWarn : Event → Bool
  | Event.warnLine _ _ => true
  | _ => false

/-- A call of `triggerPanic`. -/
def Event.isTrigger : Event → Bool
  | Event.triggerPanic => true
  | _ => false

/-- An untagged usage line. -/
def Event.isPlain : Event → Bool
  | Event.plainLine _ _ => true
  | _ => false

/-- A host on which the settle-time lookup of `machine-qemu-1.scope` succeeds,
the emulator having run for `seconds` seconds. -/
def settledHost (seconds : Int) : Host where
  glob := fun _ => some []
  readFile := fun p =>
    if p = "/m/machine-qemu-1.scope/emulator/tasks" then some "4242\n" else none
  procStat := fun p => if p = "/proc/4242" then ProcStat.age seconds else ProcStat.openErr

/-- A host whose machine `machine-qemu-1.scope` has one vCPU directory, `vcpu0`,
owned by process 4300, with `usage` as the content of `cpuacct.usage`. -/
def usageHost (usage : String) : Host where
  glob := fun p =>
    if p = "/m/machine-qemu-1.scope/vcpu*" then some ["/m/machine-qemu-1.scope/vcpu0"]
    else some []
  readFile := fun p =>
    if p = "/m/machine-qemu-1.scope/emulator/tasks" then some "4242\n"
    else if p = "/m/machine-qemu-1.scope/vcpu0/tasks" then some "4300\n"
    else if p = "/m/machine-qemu-1.scope/vcpu0/cpuacct.usage" then some usage
    else none
  procStat := fun p => if p = "/proc/4242" then ProcStat.age 300 else ProcStat.openErr

/-- A host from which the machine has vanished: nothing matches, nothing can
be read. -/
def vanishedHost : Host where
  glob := fun _ => some []
  readFile := fun _ => none
  procStat := fun _ => ProcStat.openErr

/-! ## Shape of the output -/

/-- Once the three lookups for the settle time have succeeded, the output is
the machine line followed by the output of the loop body at the indices of the
sorted slice. -/
theorem compareVcpuInfo_of_age (host : Host) (machinePath : String)
    (startVcpuInfo endVcpuInfo : Snapshot)
    (printlevel marklevel paniclevel settleTime : Int)
    (machinePidBytes : String) (machineTime : Int)
    (hread : host.readFile (machinePath ++ "/emulator/tasks") = some machinePidBytes)
    (hstat : host.procStat ("/proc/" ++ firstLine machinePidBytes) = ProcStat.age machineTime) :
    compareVcpuInfo host machinePath startVcpuInfo endVcpuInfo
        printlevel marklevel paniclevel settleTime
      = Event.machine (pathBase machinePath) machineTime (decide (machineTime ≥ settleTime)) ::
          (List.range (sortInts (parseVcpuNums startVcpuInfo)).length).flatMap
            (compareVcpu startVcpuInfo endVcpuInfo printlevel marklevel paniclevel
              (decide (machineTime ≥ settleTime))) := by
  simp only [compareVcpuInfo, hread, hstat]

/-- The loop body on a vCPU that reaches the numeric comparison. -/
theorem compareVcpu_compared (startVcpuInfo endVcpuInfo : Snapshot)
    (printlevel marklevel paniclevel : Int) (machineSettled : Bool) (vcpunum : Nat)
    (endInfo : VcpuInfo)
    (hend : Snapshot.get? endVcpuInfo (vcpuName vcpunum) = some endInfo)
    (hpid : endInfo.Pid = (Snapshot.get startVcpuInfo (vcpuName vcpunum)).Pid)
    (huse : (Snapshot.get startVcpuInfo (vcpuName vcpunum)).CpuUsage ≤ endInfo.CpuUsage) :
    compareVcpu startVcpuInfo endVcpuInfo printlevel marklevel paniclevel machineSettled vcpunum
      = if machineSettled = true ∧ paniclevel ≠ -1 ∧
            wrapInt64 (endInfo.CpuUsage -
              (Snapshot.get startVcpuInfo (vcpuName vcpunum)).CpuUsage) ≤ paniclevel then
          [Event.panicLine (vcpuName vcpunum)
              (wrapInt64 (endInfo.CpuUsage -
                (Snapshot.get startVcpuInfo (vcpuName vcpunum)).CpuUsage)),
            Event.triggerPanic]
        else if machineSettled = true ∧ marklevel ≠ -1 ∧
            wrapInt64 (endInfo.CpuUsage -
              (Snapshot.get startVcpuInfo (vcpuName vcpunum)).CpuUsage) ≤ marklevel then
          [Event.warnLine (vcpuName vcpunum)
              (wrapInt64 (endInfo.CpuUsage -
                (Snapshot.get startVcpuInfo (vcpuName vcpunum)).CpuUsage))]
        else if printlevel = -1 ∨
            wrapInt64 (endInfo.CpuUsage -
              (Snapshot.get startVcpuInfo (vcpuName vcpunum)).CpuUsage) ≤ printlevel then
          [Event.plainLine (vcpuName vcpunum)
              (wrapInt64 (endInfo.CpuUsage -
                (Snapshot.get startVcpuInfo (vcpuName vcpunum)).CpuUsage))]
        else [] := by
  unfold vcpuName at hend hpid huse
  have hlt : ¬ endInfo.CpuUsage <
      (Snapshot.get startVcpuInfo ("vcpu" ++ Itoa (vcpunum : Int))).CpuUsage := not_lt.mpr huse
  simp only [compareVcpu, vcpuName, hend, hpid, hlt, ne_eq, not_true_eq_false, if_false]

/-- The loop body on a vCPU that the end snapshot does not hold. -/
theorem compareVcpu_absent (startVcpuInfo endVcpuInfo : Snapshot)
    (printlevel marklevel paniclevel : Int) (machineSettled : Bool) (vcpunum : Nat)
    (hend : Snapshot.get? endVcpuInfo (vcpuName vcpunum) = none) :
    compareVcpu startVcpuInfo endVcpuInfo printlevel marklevel paniclevel machineSettled vcpunum
      = [Event.disappeared (vcpuName vcpunum)] := by
  unfold vcpuName at hend
  simp only [compareVcpu, vcpuName, hend]

/-- With the panic level disabled or the machine unsettled the loop body never
logs a PANIC line and never calls `triggerPanic`. -/
theorem compareVcpu_no_panic (startVcpuInfo endVcpuInfo : Snapshot)
    (printlevel marklevel paniclevel : Int) (machineSettled : Bool) (vcpunum : Nat)
    (h : machineSettled = false ∨ paniclevel = -1) :
    ∀ ev ∈ compareVcpu startVcpuInfo endVcpuInfo printlevel marklevel paniclevel
        machineSettled vcpunum, ev.isPanic = false ∧ ev.isTrigger = false := by
  intro ev hev
  unfold compareVcpu at hev
  simp only at hev
  split at hev
  · split_ifs at hev with h1 h2 h3 h4 h5
    all_goals first
      | (simp only [List.mem_singleton] at hev; subst hev; exact ⟨rfl, rfl⟩)
      | (exfalso; rcases h with h | h
         · exact absurd h3.1 (by simp [h])
         · exact h3.2.1 h)
      | (simp at hev)
  · simp only [List.mem_singleton] at hev; subst hev; exact ⟨rfl, rfl⟩

/-- With the mark level disabled or the machine unsettled the loop body never
logs a WARN line. -/
theorem compareVcpu_no_warn (startVcpuInfo endVcpuInfo : Snapshot)
    (printlevel marklevel paniclevel : Int) (machineSettled : Bool) (vcpunum : Nat)
    (h : machineSettled = false ∨ marklevel = -1) :
    ∀ ev ∈ compareVcpu startVcpuInfo endVcpuInfo printlevel marklevel paniclevel
        machineSettled vcpunum, ev.isWarn = false := by
  intro ev hev
  unfold compareVcpu at hev
  simp only at hev
  split at hev
  · split_ifs at hev with h1 h2 h3 h4 h5
    all_goals first
      | (simp only [List.mem_singleton] at hev; subst hev; rfl)
      | (simp only [List.mem_cons, List.mem_singleton, List.mem_nil_iff, or_false] at hev
         rcases hev with hev | hev <;> subst hev <;> rfl)
      | (exfalso; rcases h with h | h
         · exact absurd h4.1 (by simp [h])
         · exact h4.2.1 h)
      | (simp at hev)
  · simp only [List.mem_singleton] at hev; subst hev; rfl

/-- Every event of the output, the machine line apart, comes from the loop
body at some index, whenever the lookups succeed; otherwise the output is one
diagnostic. -/
theorem compareVcpuInfo_mem (host : Host) (machinePath : String)
    (startVcpuInfo endVcpuInfo : Snapshot)
    (printlevel marklevel paniclevel settleTime : Int) (ev : Event)
    (hev : ev ∈ compareVcpuInfo host machinePath startVcpuInfo endVcpuInfo
        printlevel marklevel paniclevel settleTime) :
    (ev.isPanic = false ∧ ev.isWarn = false ∧ ev.isTrigger = false ∧ ev.isPlain = false) ∨
    ∃ machineTime vcpunum,
      ev ∈ compareVcpu startVcpuInfo endVcpuInfo printlevel marklevel paniclevel
        (decide (machineTime ≥ settleTime)) vcpunum := by
  unfold compareVcpuInfo at hev
  simp only at hev
  split at hev
  · simp only [List.mem_singleton] at hev; subst hev; exact Or.inl ⟨rfl, rfl, rfl, rfl⟩
  · split at hev
    · simp only [List.mem_singleton] at hev; subst hev; exact Or.inl ⟨rfl, rfl, rfl, rfl⟩
    · simp only [List.mem_singleton] at hev; subst hev; exact Or.inl ⟨rfl, rfl, rfl, rfl⟩
    · rename_i machineTime _
      rcases List.mem_cons.mp hev with hev | hev
      · subst hev; exact Or.inl ⟨rfl, rfl, rfl, rfl⟩
      · rcases List.mem_flatMap.mp hev with ⟨i, _, hi⟩
        exact Or.inr ⟨machineTime, i, hi⟩

/-! ## Threshold classification -/

/-- C1: classification of a vCPU that reaches the numeric comparison.  The
output of `compareVcpuInfo` is the machine line followed by what the loop body
emits at each visited index, and for every visited vCPU that the end snapshot
holds with the Pid of the start sample and a usage not below the start usage,
with `delta` the computed difference, the body emits, first match winning:
a PANIC line followed by one call of `triggerPanic` when the machine is settled,
the panic level is not -1 and `delta` is at most the panic level; else a WARN
line and no call when settled, the mark level is not -1 and `delta` is at most
the mark level; else an untagged line and no call when the print level is -1 or
`delta` is at most the print level; else nothing.  In every case at most one
line and at most one call. -/
theorem classification_first_match (host : Host) (machinePath : String)
    (startVcpuInfo endVcpuInfo : Snapshot)
    (printlevel marklevel paniclevel settleTime : Int)
    (machinePidBytes : String) (machineTime : Int)
    (hread : host.readFile (machinePath ++ "/emulator/tasks") = some machinePidBytes)
    (hstat : host.procStat ("/proc/" ++ firstLine machinePidBytes) = ProcStat.age machineTime) :
    compareVcpuInfo host machinePath startVcpuInfo endVcpuInfo
        printlevel marklevel paniclevel settleTime
      = Event.machine (pathBase machinePath) machineTime (decide (machineTime ≥ settleTime)) ::
          (List.range (sortInts (parseVcpuNums startVcpuInfo)).length).flatMap
            (compareVcpu startVcpuInfo endVcpuInfo printlevel marklevel paniclevel
              (decide (machineTime ≥ settleTime))) ∧
    ∀ (vcpunum : Nat) (endInfo : VcpuInfo) (delta : Int),
      vcpunum < (sortInts (parseVcpuNums startVcpuInfo)).length →
      Snapshot.get? endVcpuInfo (vcpuName vcpunum) = some endInfo →
      endInfo.Pid = (Snapshot.get startVcpuInfo (vcpuName vcpunum)).Pid →
      (Snapshot.get startVcpuInfo (vcpuName vcpunum)).CpuUsage ≤ endInfo.CpuUsage →
      delta = wrapInt64 (endInfo.CpuUsage -
        (Snapshot.get startVcpuInfo (vcpuName vcpunum)).CpuUsage) →
      ((machineTime ≥ settleTime ∧ paniclevel ≠ -1 ∧ delta ≤ paniclevel) →
        compareVcpu startVcpuInfo endVcpuInfo printlevel marklevel paniclevel
            (decide (machineTime ≥ settleTime)) vcpunum
          = [Event.panicLine (vcpuName vcpunum) delta, Event.triggerPanic]) ∧
      (¬ (machineTime ≥ settleTime ∧ paniclevel ≠ -1 ∧ delta ≤ paniclevel) →
        (machineTime ≥ settleTime ∧ marklevel ≠ -1 ∧ delta ≤ marklevel) →
        compareVcpu startVcpuInfo endVcpuInfo printlevel marklevel paniclevel
            (decide (machineTime ≥ settleTime)) vcpunum
          = [Event.warnLine (vcpuName vcpunum) delta]) ∧
      (¬ (machineTime ≥ settleTime ∧ paniclevel ≠ -1 ∧ delta ≤ paniclevel) →
        ¬ (machineTime ≥ settleTime ∧ marklevel ≠ -1 ∧ delta ≤ marklevel) →
        (printlevel = -1 ∨ delta ≤ printlevel) →
        compareVcpu startVcpuInfo endVcpuInfo printlevel marklevel paniclevel
            (decide (machineTime ≥ settleTime)) vcpunum
          = [Event.plainLine (vcpuName vcpunum) delta]) ∧
      (¬ (machineTime ≥ settleTime ∧ paniclevel ≠ -1 ∧ delta ≤ paniclevel) →
        ¬ (machineTime ≥ settleTime ∧ marklevel ≠ -1 ∧ delta ≤ marklevel) →
        ¬ (printlevel = -1 ∨ delta ≤ printlevel) →
        compareVcpu startVcpuInfo endVcpuInfo printlevel marklevel paniclevel
            (decide (machineTime ≥ settleTime)) vcpunum = []) ∧
      (compareVcpu startVcpuInfo endVcpuInfo printlevel marklevel paniclevel
          (decide (machineTime ≥ settleTime)) vcpunum).countP Event.isTrigger ≤ 1 ∧
      (compareVcpu startVcpuInfo endVcpuInfo printlevel marklevel paniclevel
          (decide (machineTime ≥ settleTime)) vcpunum).countP
            (fun ev => ev.isPanic || ev.isWarn || ev.isPlain) ≤ 1 := by
  refine ⟨compareVcpuInfo_of_age host machinePath startVcpuInfo endVcpuInfo printlevel
    marklevel paniclevel settleTime machinePidBytes machineTime hread hstat, ?_⟩
  intro vcpunum endInfo delta _ hend hpid huse hdelta
  have hbody := compareVcpu_compared startVcpuInfo endVcpuInfo printlevel marklevel paniclevel
    (decide (machineTime ≥ settleTime)) vcpunum endInfo hend hpid huse
  rw [← hdelta] at hbody
  simp only [decide_eq_true_eq] at hbody
  refine ⟨?_, ?_, ?_, ?_, ?_, ?_⟩
  · intro ha
    rw [hbody, if_pos ha]
  · intro ha hb
    rw [hbody, if_neg ha, if_pos hb]
  · intro ha hb hc
    rw [hbody, if_neg ha, if_neg hb, if_pos hc]
  · intro ha hb hc
    rw [hbody, if_neg ha, if_neg hb, if_neg hc]
  · rw [hbody]
    split_ifs <;> simp [Event.isTrigger]
  · rw [hbody]
    split_ifs <;> simp [Event.isPanic, Event.isWarn, Event.isPlain]

/-- C1 at Scenario A: panic 100, mark 500, print disabled, a machine settled
for 300 seconds, usage going from 1000 to 1050. -/
theorem classification_first_match_witness :
    (settledHost 300).readFile ("/m/machine-qemu-1.scope" ++ "/emulator/tasks") = some "4242\n" ∧
    (settledHost 300).procStat ("/proc/" ++ firstLine "4242\n") = ProcStat.age 300 ∧
    compareVcpuInfo (settledHost 300) "/m/machine-qemu-1.scope"
        [("vcpu0", ⟨77, 1000⟩)] [("vcpu0", ⟨77, 1050⟩)] (-1) 500 100 120
      = [Event.machine "machine-qemu-1.scope" 300 true,
          Event.panicLine "vcpu0" 50, Event.triggerPanic] ∧
    compareVcpu [("vcpu0", ⟨77, 1000⟩)] [("vcpu0", ⟨77, 1050⟩)] (-1) 500 100
        (decide ((300 : Int) ≥ 120)) 0
      = [Event.panicLine (vcpuName 0) 50, Event.triggerPanic] :=
  ⟨by decide, by decide, by decide,
    ((classification_first_match (settledHost 300) "/m/machine-qemu-1.scope"
        [("vcpu0", ⟨77, 1000⟩)] [("vcpu0", ⟨77, 1050⟩)] (-1) 500 100 120 "4242\n" 300
        (by decide) (by decide)).2 0 ⟨77, 1050⟩ 50 (by decide) (by decide) (by decide)
        (by decide) (by decide)).1 (by decide)⟩

/-- On an unsettled machine the loop body does not look at the mark and panic
levels. -/
theorem compareVcpu_unsettled (startVcpuInfo endVcpuInfo : Snapshot)
    (printlevel marklevel paniclevel : Int) (vcpunum : Nat) :
    compareVcpu startVcpuInfo endVcpuInfo printlevel marklevel paniclevel false vcpunum
      = compareVcpu startVcpuInfo endVcpuInfo printlevel (-1) (-1) false vcpunum := by
  simp [compareVcpu]

/-- C2: settle gating.  When the elapsed seconds are below the settle time, the
output holds no WARN line, no PANIC line and no call of `triggerPanic`,
whatever the levels and the deltas; it is the output obtained with the mark and
panic levels both disabled; and a vCPU that reaches the numeric comparison gets
an untagged line exactly when the print level is -1 or its delta is at most the
print level, and nothing otherwise. -/
theorem unsettled_no_tags (host : Host) (machinePath : String)
    (startVcpuInfo endVcpuInfo : Snapshot)
    (printlevel marklevel paniclevel settleTime : Int)
    (machinePidBytes : String) (machineTime : Int)
    (hread : host.readFile (machinePath ++ "/emulator/tasks") = some machinePidBytes)
    (hstat : host.procStat ("/proc/" ++ firstLine machinePidBytes) = ProcStat.age machineTime)
    (hearly : machineTime < settleTime) :
    (∀ ev ∈ compareVcpuInfo host machinePath startVcpuInfo endVcpuInfo
        printlevel marklevel paniclevel settleTime,
      ev.isWarn = false ∧ ev.isPanic = false ∧ ev.isTrigger = false) ∧
    compareVcpuInfo host machinePath startVcpuInfo endVcpuInfo
        printlevel marklevel paniclevel settleTime
      = compareVcpuInfo host machinePath startVcpuInfo endVcpuInfo
          printlevel (-1) (-1) settleTime ∧
    compareVcpuInfo host machinePath startVcpuInfo endVcpuInfo
        printlevel marklevel paniclevel settleTime
      = Event.machine (pathBase machinePath) machineTime false ::
          (List.range (sortInts (parseVcpuNums startVcpuInfo)).length).flatMap
            (compareVcpu startVcpuInfo endVcpuInfo printlevel marklevel paniclevel false) ∧
    ∀ (vcpunum : Nat) (endInfo : VcpuInfo) (delta : Int),
      vcpunum < (sortInts (parseVcpuNums startVcpuInfo)).length →
      Snapshot.get? endVcpuInfo (vcpuName vcpunum) = some endInfo →
      endInfo.Pid = (Snapshot.get startVcpuInfo (vcpuName vcpunum)).Pid →
      (Snapshot.get startVcpuInfo (vcpuName vcpunum)).CpuUsage ≤ endInfo.CpuUsage →
      delta = wrapInt64 (endInfo.CpuUsage -
        (Snapshot.get startVcpuInfo (vcpuName vcpunum)).CpuUsage) →
      compareVcpu startVcpuInfo endVcpuInfo printlevel marklevel paniclevel false vcpunum
        = if printlevel = -1 ∨ delta ≤ printlevel then
            [Event.plainLine (vcpuName vcpunum) delta]
          else [] := by
  have hdec : decide (machineTime ≥ settleTime) = false :=
    decide_eq_false (not_le.mpr hearly)
  have hshape : ∀ m p : Int,
      compareVcpuInfo host machinePath startVcpuInfo endVcpuInfo printlevel m p settleTime
        = Event.machine (pathBase machinePath) machineTime false ::
            (List.range (sortInts (parseVcpuNums startVcpuInfo)).length).flatMap
              (compareVcpu startVcpuInfo endVcpuInfo printlevel m p false) := by
    intro m p
    rw [compareVcpuInfo_of_age host machinePath startVcpuInfo endVcpuInfo printlevel
      m p settleTime machinePidBytes machineTime hread hstat, hdec]
  refine ⟨?_, ?_, hshape marklevel paniclevel, ?_⟩
  · intro ev hev
    rw [hshape marklevel paniclevel] at hev
    rcases List.mem_cons.mp hev with hev | hev
    · subst hev; exact ⟨rfl, rfl, rfl⟩
    · rcases List.mem_flatMap.mp hev with ⟨i, _, hi⟩
      have hp := compareVcpu_no_panic startVcpuInfo endVcpuInfo printlevel marklevel
        paniclevel false i (Or.inl rfl) ev hi
      have hw := compareVcpu_no_warn startVcpuInfo endVcpuInfo printlevel marklevel
        paniclevel false i (Or.inl rfl) ev hi
      exact ⟨hw, hp.1, hp.2⟩
  · have hfun : compareVcpu startVcpuInfo endVcpuInfo printlevel marklevel paniclevel false
        = compareVcpu startVcpuInfo endVcpuInfo printlevel (-1) (-1) false :=
      funext (compareVcpu_unsettled startVcpuInfo endVcpuInfo printlevel marklevel paniclevel)
    rw [hshape marklevel paniclevel, hshape (-1) (-1), hfun]
  · intro vcpunum endInfo delta _ hend hpid huse hdelta
    have hbody := compareVcpu_compared startVcpuInfo endVcpuInfo printlevel marklevel
      paniclevel false vcpunum endInfo hend hpid huse
    rw [← hdelta] at hbody
    rw [hbody]
    simp

/-- C2 at Scenario E: an unsettled machine (60 of 120 seconds), delta 50, panic
level 100, print level 50: one untagged line. -/
theorem unsettled_no_tags_witness :
    (settledHost 60).readFile ("/m/machine-qemu-1.scope" ++ "/emulator/tasks") = some "4242\n" ∧
    (settledHost 60).procStat ("/proc/" ++ firstLine "4242\n") = ProcStat.age 60 ∧
    (60 : Int) < 120 ∧
    compareVcpuInfo (settledHost 60) "/m/machine-qemu-1.scope"
        [("vcpu0", ⟨77, 1000⟩)] [("vcpu0", ⟨77, 1050⟩)] 50 500 100 120
      = [Event.machine "machine-qemu-1.scope" 60 false, Event.plainLine "vcpu0" 50] ∧
    ∀ ev ∈ compareVcpuInfo (settledHost 60) "/m/machine-qemu-1.scope"
        [("vcpu0", ⟨77, 1000⟩)] [("vcpu0", ⟨77, 1050⟩)] 50 500 100 120,
      ev.isWarn = false ∧ ev.isPanic = false ∧ ev.isTrigger = false :=
  ⟨by decide, by decide, by decide, by decide,
    (unsettled_no_tags (settledHost 60) "/m/machine-qemu-1.scope"
      [("vcpu0", ⟨77, 1000⟩)] [("vcpu0", ⟨77, 1050⟩)] 50 500 100 120 "4242\n" 60
      (by decide) (by decide) (by decide)).1⟩

/-- C3, as stated, fails at Scenario C: panic 100, mark 500, print -1, settled,
delta 2000.  The vCPU gets an untagged line. -/
theorem disabled_print_scenario_c :
    compareVcpuInfo (settledHost 300) "/m/machine-qemu-1.scope"
        [("vcpu0", ⟨77, 1000⟩)] [("vcpu0", ⟨77, 3000⟩)] (-1) 500 100 120
      = [Event.machine "machine-qemu-1.scope" 300 true, Event.plainLine "vcpu0" 2000] := by
  decide

/-- C3, amended: with the panic level at -1 the output holds no PANIC line and
no call of `triggerPanic`; with the mark level at -1 it holds no WARN line;
with the print level at -1 the print tier matches every delta, so that a vCPU
that reaches the numeric comparison always gets exactly one line, which is the
untagged one whenever neither the panic nor the mark tier matches. -/
theorem disabled_levels (host : Host) (machinePath : String)
    (startVcpuInfo endVcpuInfo : Snapshot)
    (printlevel marklevel paniclevel settleTime : Int) :
    (∀ ev ∈ compareVcpuInfo host machinePath startVcpuInfo endVcpuInfo
        printlevel marklevel (-1) settleTime,
      ev.isPanic = false ∧ ev.isTrigger = false) ∧
    (∀ ev ∈ compareVcpuInfo host machinePath startVcpuInfo endVcpuInfo
        printlevel (-1) paniclevel settleTime,
      ev.isWarn = false) ∧
    ∀ (machineSettled : Bool) (vcpunum : Nat) (endInfo : VcpuInfo) (delta : Int),
      Snapshot.get? endVcpuInfo (vcpuName vcpunum) = some endInfo →
      endInfo.Pid = (Snapshot.get startVcpuInfo (vcpuName vcpunum)).Pid →
      (Snapshot.get startVcpuInfo (vcpuName vcpunum)).CpuUsage ≤ endInfo.CpuUsage →
      delta = wrapInt64 (endInfo.CpuUsage -
        (Snapshot.get startVcpuInfo (vcpuName vcpunum)).CpuUsage) →
      (compareVcpu startVcpuInfo endVcpuInfo (-1) marklevel paniclevel machineSettled
          vcpunum).countP (fun ev => ev.isPanic || ev.isWarn || ev.isPlain) = 1 ∧
      (¬ (machineSettled = true ∧ paniclevel ≠ -1 ∧ delta ≤ paniclevel) →
        ¬ (machineSettled = true ∧ marklevel ≠ -1 ∧ delta ≤ marklevel) →
        compareVcpu startVcpuInfo endVcpuInfo (-1) marklevel paniclevel machineSettled vcpunum
          = [Event.plainLine (vcpuName vcpunum) delta]) := by
  refine ⟨?_, ?_, ?_⟩
  · intro ev hev
    rcases compareVcpuInfo_mem host machinePath startVcpuInfo endVcpuInfo printlevel
      marklevel (-1) settleTime ev hev with h | ⟨t, i, hi⟩
    · exact ⟨h.1, h.2.2.1⟩
    · exact compareVcpu_no_panic startVcpuInfo endVcpuInfo printlevel marklevel (-1)
        (decide (t ≥ settleTime)) i (Or.inr rfl) ev hi
  · intro ev hev
    rcases compareVcpuInfo_mem host machinePath startVcpuInfo endVcpuInfo printlevel
      (-1) paniclevel settleTime ev hev with h | ⟨t, i, hi⟩
    · exact h.2.1
    · exact compareVcpu_no_warn startVcpuInfo endVcpuInfo printlevel (-1) paniclevel
        (decide (t ≥ settleTime)) i (Or.inr rfl) ev hi
  · intro machineSettled vcpunum endInfo delta hend hpid huse hdelta
    have hbody := compareVcpu_compared startVcpuInfo endVcpuInfo (-1) marklevel
      paniclevel machineSettled vcpunum endInfo hend hpid huse
    rw [← hdelta] at hbody
    refine ⟨?_, ?_⟩
    · rw [hbody]
      split_ifs <;> simp_all [Event.isPanic, Event.isWarn, Event.isPlain]
    · intro ha hb
      rw [hbody, if_neg ha, if_neg hb, if_pos (Or.inl rfl)]

/-- C3, amended, at Scenario C: print level -1, delta 2000 above the panic
level 100 and the mark level 500 of a settled machine. -/
theorem disabled_levels_witness :
    Snapshot.get? [("vcpu0", ⟨77, 3000⟩)] (vcpuName 0) = some ⟨77, 3000⟩ ∧
    compareVcpu [("vcpu0", ⟨77, 1000⟩)] [("vcpu0", ⟨77, 3000⟩)] (-1) 500 100 true 0
      = [Event.plainLine (vcpuName 0) 2000] :=
  ⟨by decide,
    ((disabled_levels (settledHost 300) "/m/machine-qemu-1.scope"
        [("vcpu0", ⟨77, 1000⟩)] [("vcpu0", ⟨77, 3000⟩)] (-1) 500 100 120).2.2
      true 0 ⟨77, 3000⟩ 2000 (by decide) (by decide) (by decide) (by decide)).2
      (by decide) (by decide)⟩

/-! ## Which vCPUs are visited -/

/-- The loop body on a vCPU whose Pid differs between the two snapshots. -/
theorem compareVcpu_pid_changed (startVcpuInfo endVcpuInfo : Snapshot)
    (printlevel marklevel paniclevel : Int) (machineSettled : Bool) (vcpunum : Nat)
    (endInfo : VcpuInfo)
    (hend : Snapshot.get? endVcpuInfo (vcpuName vcpunum) = some endInfo)
    (hpid : endInfo.Pid ≠ (Snapshot.get startVcpuInfo (vcpuName vcpunum)).Pid) :
    compareVcpu startVcpuInfo endVcpuInfo printlevel marklevel paniclevel machineSettled vcpunum
      = [Event.pidChanged (vcpuName vcpunum)
          (Snapshot.get startVcpuInfo (vcpuName vcpunum)).Pid endInfo.Pid] := by
  unfold vcpuName at hend hpid
  simp only [compareVcpu, vcpuName, hend, hpid, ne_eq, not_false_eq_true, if_true]

/-- The loop body on a vCPU whose usage went down under the same Pid. -/
theorem compareVcpu_rolled_over (startVcpuInfo endVcpuInfo : Snapshot)
    (printlevel marklevel paniclevel : Int) (machineSettled : Bool) (vcpunum : Nat)
    (endInfo : VcpuInfo)
    (hend : Snapshot.get? endVcpuInfo (vcpuName vcpunum) = some endInfo)
    (hpid : endInfo.Pid = (Snapshot.get startVcpuInfo (vcpuName vcpunum)).Pid)
    (huse : endInfo.CpuUsage < (Snapshot.get startVcpuInfo (vcpuName vcpunum)).CpuUsage) :
    compareVcpu startVcpuInfo endVcpuInfo printlevel marklevel paniclevel machineSettled vcpunum
      = [Event.rolledOver (vcpuName vcpunum)
          (Snapshot.get startVcpuInfo (vcpuName vcpunum)).CpuUsage endInfo.CpuUsage] := by
  unfold vcpuName at hend hpid huse
  simp only [compareVcpu, vcpuName, hend, hpid, huse, ne_eq, not_true_eq_false, if_false,
    if_true]

/-- C4: a start snapshot holding `vcpu2` and `vcpu10`.  The numbers are parsed
and sorted as `[2, 10]`, but the second loop runs over the indices 0 and 1 of
that slice: `vcpu0` and `vcpu1`, which the start snapshot does not hold, are
processed, and `vcpu2` and `vcpu10` are not. -/
theorem visits_indices_not_names :
    sortInts (parseVcpuNums [("vcpu10", ⟨80, 1000⟩), ("vcpu2", ⟨72, 1000⟩)]) = [2, 10] ∧
    visited [("vcpu10", ⟨80, 1000⟩), ("vcpu2", ⟨72, 1000⟩)] = ["vcpu0", "vcpu1"] ∧
    compareVcpuInfo (settledHost 300) "/m/machine-qemu-1.scope"
        [("vcpu10", ⟨80, 1000⟩), ("vcpu2", ⟨72, 1000⟩)]
        [("vcpu10", ⟨80, 2000⟩), ("vcpu2", ⟨72, 2000⟩)] (-1) (-1) (-1) 120
      = [Event.machine "machine-qemu-1.scope" 300 true,
          Event.disappeared "vcpu0", Event.disappeared "vcpu1"] := by
  refine ⟨by decide, by decide, by decide⟩

/-- C5: a start snapshot holding only `vcpu1`, and an empty end snapshot.  The
line logged is about `vcpu0`; `vcpu1` is not reported as disappeared. -/
theorem disappeared_not_reported :
    compareVcpuInfo (settledHost 300) "/m/machine-qemu-1.scope"
        [("vcpu1", ⟨71, 1000⟩)] [] (-1) (-1) (-1) 120
      = [Event.machine "machine-qemu-1.scope" 300 true, Event.disappeared "vcpu0"] ∧
    Event.disappeared "vcpu1" ∉ compareVcpuInfo (settledHost 300) "/m/machine-qemu-1.scope"
        [("vcpu1", ⟨71, 1000⟩)] [] (-1) (-1) (-1) 120 := by
  refine ⟨by decide, by decide⟩

/-- C6: `vcpu1` is in both snapshots with Pid 71 at the start and 99 at the
end.  No line about a changed Pid is logged: the only vCPU processed is `vcpu0`,
reported as disappeared. -/
theorem pid_change_not_reported :
    compareVcpuInfo (settledHost 300) "/m/machine-qemu-1.scope"
        [("vcpu1", ⟨71, 1000⟩)] [("vcpu1", ⟨99, 1500⟩)] (-1) (-1) (-1) 120
      = [Event.machine "machine-qemu-1.scope" 300 true, Event.disappeared "vcpu0"] ∧
    Event.pidChanged "vcpu1" 71 99 ∉ compareVcpuInfo (settledHost 300)
        "/m/machine-qemu-1.scope"
        [("vcpu1", ⟨71, 1000⟩)] [("vcpu1", ⟨99, 1500⟩)] (-1) (-1) (-1) 120 := by
  refine ⟨by decide, by decide⟩

/-- C7: `vcpu1` is in both snapshots under Pid 71 with usage 5000 at the start
and 4000 at the end (Scenario D).  No line about a rolled-over counter is
logged: the only vCPU processed is `vcpu0`, reported as disappeared. -/
theorem rollover_not_reported :
    compareVcpuInfo (settledHost 300) "/m/machine-qemu-1.scope"
        [("vcpu1", ⟨71, 5000⟩)] [("vcpu1", ⟨71, 4000⟩)] (-1) (-1) (-1) 120
      = [Event.machine "machine-qemu-1.scope" 300 true, Event.disappeared "vcpu0"] ∧
    Event.rolledOver "vcpu1" 5000 4000 ∉ compareVcpuInfo (settledHost 300)
        "/m/machine-qemu-1.scope"
        [("vcpu1", ⟨71, 5000⟩)] [("vcpu1", ⟨71, 4000⟩)] (-1) (-1) (-1) 120 := by
  refine ⟨by decide, by decide⟩

/-! ## The delta -/

/-- Reduction to `int64` leaves a value of that range as it is. -/
theorem wrapInt64_of_fits (x : Int) (hlo : -(2 ^ 63 : Int) ≤ x) (hhi : x < (2 ^ 63 : Int)) :
    wrapInt64 x = x := by
  unfold wrapInt64
  rw [Int.emod_eq_of_lt (by omega) (by omega)]
  omega

/-- C8, as stated, fails for a start usage of -1 and an end usage of
2^63 - 1, both read and parsed by `getVcpusInfo`: the delta logged is -2^63. -/
theorem delta_wraps :
    getVcpusInfo (usageHost "-1\n") "/m/machine-qemu-1.scope"
      = some ([("vcpu0", ⟨4300, -1⟩)], []) ∧
    getVcpusInfo (usageHost "9223372036854775807\n") "/m/machine-qemu-1.scope"
      = some ([("vcpu0", ⟨4300, 9223372036854775807⟩)], []) ∧
    classifyMachine (usageHost "9223372036854775807\n") "/m/machine-qemu-1.scope"
        [("vcpu0", ⟨4300, -1⟩)] (-1) (-1) (-1) 120
      = some [Event.machine "machine-qemu-1.scope" 300 true,
          Event.plainLine "vcpu0" (-9223372036854775808)] := by
  refine ⟨by decide, by decide, by decide⟩

/-- C8, amended: for a vCPU that reaches the numeric comparison with an end
usage in the range of `int64`, and whose exact difference is below 2^63 (which
is so whenever the start usage is not negative), the delta computed is the
exact difference, it is not negative, and it is the value that is compared with
the three levels and logged. -/
theorem delta_exact (startVcpuInfo endVcpuInfo : Snapshot)
    (printlevel marklevel paniclevel : Int) (machineSettled : Bool) (vcpunum : Nat)
    (endInfo : VcpuInfo)
    (hend : Snapshot.get? endVcpuInfo (vcpuName vcpunum) = some endInfo)
    (hpid : endInfo.Pid = (Snapshot.get startVcpuInfo (vcpuName vcpunum)).Pid)
    (huse : (Snapshot.get startVcpuInfo (vcpuName vcpunum)).CpuUsage ≤ endInfo.CpuUsage)
    (hfits : fitsInt 64 endInfo.CpuUsage)
    (hsmall : 0 ≤ (Snapshot.get startVcpuInfo (vcpuName vcpunum)).CpuUsage ∨
      endInfo.CpuUsage - (Snapshot.get startVcpuInfo (vcpuName vcpunum)).CpuUsage
        < (2 ^ 63 : Int)) :
    wrapInt64 (endInfo.CpuUsage - (Snapshot.get startVcpuInfo (vcpuName vcpunum)).CpuUsage)
      = endInfo.CpuUsage - (Snapshot.get startVcpuInfo (vcpuName vcpunum)).CpuUsage ∧
    0 ≤ wrapInt64
      (endInfo.CpuUsage - (Snapshot.get startVcpuInfo (vcpuName vcpunum)).CpuUsage) ∧
    compareVcpu startVcpuInfo endVcpuInfo printlevel marklevel paniclevel machineSettled vcpunum
      = if machineSettled = true ∧ paniclevel ≠ -1 ∧
            endInfo.CpuUsage - (Snapshot.get startVcpuInfo (vcpuName vcpunum)).CpuUsage
              ≤ paniclevel then
          [Event.panicLine (vcpuName vcpunum)
              (endInfo.CpuUsage - (Snapshot.get startVcpuInfo (vcpuName vcpunum)).CpuUsage),
            Event.triggerPanic]
        else if machineSettled = true ∧ marklevel ≠ -1 ∧
            endInfo.CpuUsage - (Snapshot.get startVcpuInfo (vcpuName vcpunum)).CpuUsage
              ≤ marklevel then
          [Event.warnLine (vcpuName vcpunum)
              (endInfo.CpuUsage - (Snapshot.get startVcpuInfo (vcpuName vcpunum)).CpuUsage)]
        else if printlevel = -1 ∨
            endInfo.CpuUsage - (Snapshot.get startVcpuInfo (vcpuName vcpunum)).CpuUsage
              ≤ printlevel then
          [Event.plainLine (vcpuName vcpunum)
              (endInfo.CpuUsage - (Snapshot.get startVcpuInfo (vcpuName vcpunum)).CpuUsage)]
        else [] := by
  have hhi : endInfo.CpuUsage < (2 ^ 63 : Int) := by
    have h := hfits.2
    simpa using h
  have hwrap : wrapInt64
      (endInfo.CpuUsage - (Snapshot.get startVcpuInfo (vcpuName vcpunum)).CpuUsage)
      = endInfo.CpuUsage - (Snapshot.get startVcpuInfo (vcpuName vcpunum)).CpuUsage := by
    apply wrapInt64_of_fits
    · omega
    · rcases hsmall with h | h
      · omega
      · exact h
  have hbody := compareVcpu_compared startVcpuInfo endVcpuInfo printlevel marklevel
    paniclevel machineSettled vcpunum endInfo hend hpid huse
  rw [hwrap] at hbody
  refine ⟨hwrap, ?_, hbody⟩
  rw [hwrap]
  omega

/-- C8, amended, at Scenario A: usage going from 1000 to 1050 gives delta 50. -/
theorem delta_exact_witness :
    Snapshot.get? [("vcpu0", ⟨77, 1050⟩)] (vcpuName 0) = some ⟨77, 1050⟩ ∧
    fitsInt 64 1050 ∧
    wrapInt64 ((1050 : Int) - (Snapshot.get [("vcpu0", ⟨77, 1000⟩)] (vcpuName 0)).CpuUsage)
      = 1050 - (Snapshot.get [("vcpu0", ⟨77, 1000⟩)] (vcpuName 0)).CpuUsage :=
  ⟨by decide, by decide,
    (delta_exact [("vcpu0", ⟨77, 1000⟩)] [("vcpu0", ⟨77, 1050⟩)] (-1) 500 100 true 0
      ⟨77, 1050⟩ (by decide) (by decide) (by decide) (by decide) (Or.inl (by decide))).1⟩

/-! ## A machine that has vanished -/

/-- Against an empty end snapshot the loop logs one disappeared line per
visited name. -/
theorem flatMap_compareVcpu_nil (startVcpuInfo : Snapshot)
    (printlevel marklevel paniclevel : Int) (machineSettled : Bool) (idx : List Nat) :
    idx.flatMap (compareVcpu startVcpuInfo [] printlevel marklevel paniclevel machineSettled)
      = (idx.map vcpuName).map Event.disappeared := by
  induction idx with
  | nil => rfl
  | cons i rest ih =>
    rw [List.flatMap_cons, ih,
      compareVcpu_absent startVcpuInfo [] printlevel marklevel paniclevel machineSettled i rfl]
    rfl

/-- C9, as stated, fails: on a host from which the machine is gone, the end
snapshot is empty and the classification of a start snapshot holding `vcpu0`
logs the failed lookup of the emulator's PID and nothing else. -/
theorem vanished_machine_no_disappeared :
    getVcpusInfo vanishedHost "/m/machine-qemu-1.scope" = some ([], []) ∧
    classifyMachine vanishedHost "/m/machine-qemu-1.scope"
        [("vcpu0", ⟨77, 1000⟩)] (-1) (-1) (-1) 120
      = some [Event.cantFindPid "machine-qemu-1.scope"] ∧
    Event.disappeared "vcpu0" ∉ compareVcpuInfo vanishedHost "/m/machine-qemu-1.scope"
        [("vcpu0", ⟨77, 1000⟩)] [] (-1) (-1) (-1) 120 := by
  refine ⟨by decide, by decide, by decide⟩

/-- C9, amended: when the glob of a machine matches nothing and its
`emulator/tasks` cannot be read, the end snapshot is empty and the
classification logs the failed PID lookup as its only line, so that no vCPU is
reported as disappeared.  When the lookups for the settle time succeed and the
end snapshot is empty, the output is the machine line followed by one
disappeared line for each name the loop visits. -/
theorem vanished_machine_skipped (host : Host) (machine : String)
    (startVcpuInfo : Snapshot) (printlevel marklevel paniclevel settletime : Int) :
    (host.glob (machine ++ "/vcpu*") = some [] →
      host.readFile (machine ++ "/emulator/tasks") = none →
      getVcpusInfo host machine = some ([], []) ∧
      compareVcpuInfo host machine startVcpuInfo [] printlevel marklevel paniclevel settletime
        = [Event.cantFindPid (pathBase machine)] ∧
      classifyMachine host machine startVcpuInfo printlevel marklevel paniclevel settletime
        = some [Event.cantFindPid (pathBase machine)]) ∧
    (∀ (machinePidBytes : String) (machineTime : Int),
      host.readFile (machine ++ "/emulator/tasks") = some machinePidBytes →
      host.procStat ("/proc/" ++ firstLine machinePidBytes) = ProcStat.age machineTime →
      compareVcpuInfo host machine startVcpuInfo [] printlevel marklevel paniclevel settletime
        = Event.machine (pathBase machine) machineTime (decide (machineTime ≥ settletime)) ::
            (visited startVcpuInfo).map Event.disappeared) := by
  refine ⟨?_, ?_⟩
  · intro hglob hread
    have hsnap : getVcpusInfo host machine = some ([], []) := by
      simp only [getVcpusInfo, hglob, List.foldl_nil]
    have hcmp : compareVcpuInfo host machine startVcpuInfo [] printlevel marklevel
        paniclevel settletime = [Event.cantFindPid (pathBase machine)] := by
      simp only [compareVcpuInfo, hread]
    refine ⟨hsnap, hcmp, ?_⟩
    simp only [classifyMachine, hsnap, hcmp, List.nil_append]
  · intro machinePidBytes machineTime hread hstat
    rw [compareVcpuInfo_of_age host machine startVcpuInfo [] printlevel marklevel
      paniclevel settletime machinePidBytes machineTime hread hstat,
      flatMap_compareVcpu_nil]
    rfl

/-- C9, amended, on the vanished host and on a host where the lookups succeed,
each with a start snapshot holding `vcpu0`. -/
theorem vanished_machine_skipped_witness :
    (vanishedHost.glob ("/m/machine-qemu-1.scope" ++ "/vcpu*") = some [] ∧
      vanishedHost.readFile ("/m/machine-qemu-1.scope" ++ "/emulator/tasks") = none ∧
      classifyMachine vanishedHost "/m/machine-qemu-1.scope"
          [("vcpu0", ⟨77, 1000⟩)] (-1) 500 100 120
        = some [Event.cantFindPid (pathBase "/m/machine-qemu-1.scope")]) ∧
    ((settledHost 300).readFile ("/m/machine-qemu-1.scope" ++ "/emulator/tasks")
        = some "4242\n" ∧
      (settledHost 300).procStat ("/proc/" ++ firstLine "4242\n") = ProcStat.age 300 ∧
      compareVcpuInfo (settledHost 300) "/m/machine-qemu-1.scope"
          [("vcpu0", ⟨77, 1000⟩)] [] (-1) 500 100 120
        = Event.machine (pathBase "/m/machine-qemu-1.scope") 300 (decide ((300 : Int) ≥ 120)) ::
            (visited [("vcpu0", ⟨77, 1000⟩)]).map Event.disappeared) :=
  ⟨⟨by decide, by decide,
      ((vanished_machine_skipped vanishedHost "/m/machine-qemu-1.scope"
        [("vcpu0", ⟨77, 1000⟩)] (-1) 500 100 120).1 (by decide) (by decide)).2.2⟩,
    ⟨by decide, by decide,
      (vanished_machine_skipped (settledHost 300) "/m/machine-qemu-1.scope"
        [("vcpu0", ⟨77, 1000⟩)] (-1) 500 100 120).2 "4242\n" 300 (by decide) (by decide)⟩⟩

/-! ## Names rebuilt from indices -/

/-- A digit character has the value of its digit. -/
theorem digitVal_digitChar (d : Nat) (hd : d < 10) : digitVal (digitChar d) = some d := by
  interval_cases d <;> decide

/-- A digit character is neither in the cutset `vcpu` nor a sign. -/
theorem digitChar_not_cut (d : Nat) (hd : d < 10) :
    decide (digitChar d ∈ "vcpu".data) = false ∧ digitChar d ≠ '-' ∧ digitChar d ≠ '+' := by
  interval_cases d <;> decide

/-- The digits are written in front of what has been written so far. -/
theorem formatLoop_append (fuel u : Nat) (acc : List Char) :
    formatLoop fuel u acc = formatLoop fuel u [] ++ acc := by
  induction fuel generalizing u acc with
  | zero => simp [formatLoop]
  | succ fuel ih =>
    unfold formatLoop
    by_cases hu : u < 10
    · simp [hu]
    · rw [if_neg hu, if_neg hu, ih (u / 10) (digitChar (u % 10) :: acc),
        ih (u / 10) [digitChar (u % 10)]]
      simp

/-- What `formatLoop` writes starts with a digit. -/
theorem formatLoop_head (fuel u : Nat) (acc : List Char) :
    ∃ d cs, d < 10 ∧ formatLoop fuel u acc = digitChar d :: cs := by
  induction fuel generalizing u acc with
  | zero => exact ⟨u % 10, acc, Nat.mod_lt _ (by decide), rfl⟩
  | succ fuel ih =>
    unfold formatLoop
    by_cases hu : u < 10
    · exact ⟨u, acc, hu, by rw [if_pos hu]⟩
    · rw [if_neg hu]
      exact ih (u / 10) (digitChar (u % 10) :: acc)

/-- Parsing a concatenation continues from the value of the first part. -/
theorem parseLoop_append (xs ys : List Char) (n : Nat) :
    parseLoop (xs ++ ys) n = (parseLoop xs n).bind (parseLoop ys) := by
  induction xs generalizing n with
  | nil => simp [parseLoop]
  | cons c cs ih =>
    simp only [List.cons_append, parseLoop]
    cases digitVal c with
    | none => simp
    | some d => exact ih (n * 10 + d)

/-- Parsing the digits written for `u` gives `u` back, with fuel at least `u`. -/
theorem parseLoop_formatLoop (fuel u : Nat) (hu : u ≤ fuel) :
    parseLoop (formatLoop fuel u []) 0 = some u := by
  induction fuel generalizing u with
  | zero =>
    have h0 : u = 0 := Nat.le_zero.mp hu
    subst h0
    decide
  | succ fuel ih =>
    unfold formatLoop
    by_cases h10 : u < 10
    · rw [if_pos h10]
      simp [parseLoop, digitVal_digitChar u h10]
    · rw [if_neg h10, formatLoop_append, parseLoop_append, ih (u / 10) (by omega)]
      simp only [Option.some_bind, parseLoop,
        digitVal_digitChar (u % 10) (Nat.mod_lt _ (by decide))]
      congr 1
      omega

/-- Stripping the prefix of a rebuilt name and parsing what is left gives the
index back. -/
theorem Atoi_TrimLeft_vcpuName (i : Nat) (hi : i < 2 ^ 63) :
    Atoi (TrimLeft (vcpuName i) "vcpu") = some (i : Int) := by
  obtain ⟨d, cs, hd, hfmt⟩ := formatLoop_head i i []
  obtain ⟨hcut, hminus, hplus⟩ := digitChar_not_cut d hd
  have hparse : parseLoop (digitChar d :: cs) 0 = some i := by
    rw [← hfmt]
    exact parseLoop_formatLoop i i (Nat.le_refl i)
  have hitoa : Itoa (i : Int) = String.mk (digitChar d :: cs) := by
    unfold Itoa
    rw [if_neg (by omega), Int.natAbs_ofNat, hfmt]
  have htrim : TrimLeft (vcpuName i) "vcpu" = String.mk (digitChar d :: cs) := by
    unfold TrimLeft vcpuName
    rw [hitoa, String.data_append]
    have hv : "vcpu".data = ['v', 'c', 'p', 'u'] := rfl
    rw [hv] at hcut ⊢
    simp only [List.cons_append, List.nil_append]
    rw [List.dropWhile_cons_of_pos (by decide), List.dropWhile_cons_of_pos (by decide),
      List.dropWhile_cons_of_pos (by decide), List.dropWhile_cons_of_pos (by decide),
      List.dropWhile_cons_of_neg
        (by show ¬ decide (digitChar d ∈ ['v', 'c', 'p', 'u']) = true; rw [hcut]; decide)]
  have hfit : fitsInt intSize (i : Int) := by
    unfold fitsInt intSize
    constructor
    · have : (0 : Int) ≤ (i : Int) := Int.ofNat_nonneg i
      have h2 : (0 : Int) ≤ 2 ^ (64 - 1) := by positivity
      omega
    · have : ((i : Nat) : Int) < ((2 ^ 63 : Nat) : Int) := Int.ofNat_lt.mpr hi
      simpa using this
  unfold Atoi ParseInt
  rw [htrim]
  simp only [hminus, hplus, or_self, if_false, decide_False, hparse, Bool.false_eq_true,
    hfit, if_true]

/-- Different indices give different names. -/
theorem vcpuName_injective (i j : Nat) (hi : i < 2 ^ 63) (hj : j < 2 ^ 63)
    (h : vcpuName i = vcpuName j) : i = j := by
  have h1 := Atoi_TrimLeft_vcpuName i hi
  have h2 := Atoi_TrimLeft_vcpuName j hj
  rw [h, h2] at h1
  exact (Int.ofNat_inj.mp (Option.some.inj h1)).symm

/-- The first loop of `compareVcpuInfo` on rebuilt names gives their indices. -/
theorem parse_rebuilt_names (l : List Nat) (hl : ∀ i ∈ l, i < 2 ^ 63) :
    (l.map vcpuName).filterMap (fun name => Atoi (TrimLeft name "vcpu"))
      = l.map Int.ofNat := by
  induction l with
  | nil => rfl
  | cons i rest ih =>
    have hi := Atoi_TrimLeft_vcpuName i (hl i (List.mem_cons_self i rest))
    rw [List.map_cons, List.filterMap_cons, hi]
    simp only [List.map_cons]
    rw [ih (fun j hj => hl j (List.mem_cons_of_mem i hj))]
    rfl

/-- The first loop of `compareVcpuInfo` only reads the keys of the map. -/
theorem parseVcpuNums_eq (startVcpuInfo : Snapshot) :
    parseVcpuNums startVcpuInfo
      = (startVcpuInfo.map Prod.fst).filterMap (fun name => Atoi (TrimLeft name "vcpu")) := by
  unfold parseVcpuNums
  rw [List.filterMap_map]
  rfl

/-- The indices `0 .. n-1` are in ascending order. -/
theorem sorted_range_cast (n : Nat) :
    ((List.range n).map Int.ofNat).Sorted (fun a b => a ≤ b) := by
  unfold List.Sorted
  rw [List.pairwise_map]
  exact (List.pairwise_lt_range n).imp (fun {a b} hab => Int.ofNat_le.mpr (Nat.le_of_lt hab))

/-- Sorting the numbers parsed from the names `vcpu0 .. vcpu(n-1)`, in any
order, gives `0 .. n-1`. -/
theorem sortInts_parse_contiguous (startVcpuInfo : Snapshot) (n : Nat) (hn : n ≤ 2 ^ 63)
    (hnames : (startVcpuInfo.map Prod.fst).Perm ((List.range n).map vcpuName)) :
    sortInts (parseVcpuNums startVcpuInfo) = (List.range n).map Int.ofNat := by
  have hperm : (parseVcpuNums startVcpuInfo).Perm ((List.range n).map Int.ofNat) := by
    rw [parseVcpuNums_eq, ← parse_rebuilt_names (List.range n)
      (fun i hi => Nat.lt_of_lt_of_le (List.mem_range.mp hi) hn)]
    exact hnames.filterMap _
  unfold sortInts
  exact List.eq_of_perm_of_sorted
    ((List.perm_insertionSort _ _).trans hperm)
    (List.sorted_insertionSort _ _) (sorted_range_cast n)

/-- A key of the map is found, with a value stored under it. -/
theorem Snapshot.get?_of_mem_keys (m : Snapshot) (k : String)
    (hk : k ∈ m.map Prod.fst) :
    ∃ v, Snapshot.get? m k = some v ∧ (k, v) ∈ m := by
  induction m with
  | nil => simp at hk
  | cons kv rest ih =>
    obtain ⟨k', v'⟩ := kv
    unfold Snapshot.get?
    by_cases hkk : k' = k
    · subst hkk
      exact ⟨v', by simp, List.mem_cons_self _ _⟩
    · have hk' : k ∈ rest.map Prod.fst := by
        simp only [List.map_cons, List.mem_cons] at hk
        rcases hk with hk | hk
        · exact absurd hk.symm hkk
        · exact hk
      obtain ⟨v, hv, hmem⟩ := ih hk'
      exact ⟨v, by rw [if_neg hkk]; exact hv, List.mem_cons_of_mem _ hmem⟩

/-- C10: when the names of the start snapshot are exactly `vcpu0 .. vcpu(n-1)`,
in any iteration order (`n` at most 2^63, as the length of any Go map is), the
numbers parsed from them sort to `0 .. n-1`, the names rebuilt from the loop
variable are `vcpu0 .. vcpu(n-1)` in that order, each once, and are the names of
the start snapshot; each rebuilt name finds its own sample in the start
snapshot; and `compareVcpuInfo` emits the machine line followed by the loop
body at `0 .. n-1`. -/
theorem contiguous_names_visited (host : Host) (machinePath : String)
    (startVcpuInfo endVcpuInfo : Snapshot)
    (printlevel marklevel paniclevel settleTime : Int)
    (machinePidBytes : String) (machineTime : Int) (n : Nat)
    (hn : n ≤ 2 ^ 63)
    (hnames : (startVcpuInfo.map Prod.fst).Perm ((List.range n).map vcpuName))
    (hread : host.readFile (machinePath ++ "/emulator/tasks") = some machinePidBytes)
    (hstat : host.procStat ("/proc/" ++ firstLine machinePidBytes) = ProcStat.age machineTime) :
    sortInts (parseVcpuNums startVcpuInfo) = (List.range n).map Int.ofNat ∧
    visited startVcpuInfo = (List.range n).map vcpuName ∧
    (visited startVcpuInfo).Perm (startVcpuInfo.map Prod.fst) ∧
    (visited startVcpuInfo).Nodup ∧
    (∀ i, i < n → ∃ startInfo, (vcpuName i, startInfo) ∈ startVcpuInfo ∧
      Snapshot.get? startVcpuInfo (vcpuName i) = some startInfo ∧
      Snapshot.get startVcpuInfo (vcpuName i) = startInfo) ∧
    compareVcpuInfo host machinePath startVcpuInfo endVcpuInfo
        printlevel marklevel paniclevel settleTime
      = Event.machine (pathBase machinePath) machineTime (decide (machineTime ≥ settleTime)) ::
          (List.range n).flatMap
            (compareVcpu startVcpuInfo endVcpuInfo printlevel marklevel paniclevel
              (decide (machineTime ≥ settleTime))) := by
  have hsort := sortInts_parse_contiguous startVcpuInfo n hn hnames
  have hlen : (sortInts (parseVcpuNums startVcpuInfo)).length = n := by
    rw [hsort, List.length_map, List.length_range]
  have hvis : visited startVcpuInfo = (List.range n).map vcpuName := by
    unfold visited
    rw [hlen]
  have hnodup : ((List.range n).map vcpuName).Nodup := by
    rw [List.nodup_map_iff_inj_on (List.nodup_range n)]
    intro i hi j hj hij
    exact vcpuName_injective i j
      (Nat.lt_of_lt_of_le (List.mem_range.mp hi) hn)
      (Nat.lt_of_lt_of_le (List.mem_range.mp hj) hn) hij
  refine ⟨hsort, hvis, ?_, ?_, ?_, ?_⟩
  · rw [hvis]
    exact hnames.symm
  · rw [hvis]
    exact hnodup
  · intro i hi
    have hmem : vcpuName i ∈ startVcpuInfo.map Prod.fst :=
      hnames.symm.subset (List.mem_map_of_mem vcpuName (List.mem_range.mpr hi))
    obtain ⟨v, hv, hin⟩ := Snapshot.get?_of_mem_keys startVcpuInfo (vcpuName i) hmem
    refine ⟨v, hin, hv, ?_⟩
    unfold Snapshot.get
    rw [hv]
  · rw [compareVcpuInfo_of_age host machinePath startVcpuInfo endVcpuInfo printlevel
      marklevel paniclevel settleTime machinePidBytes machineTime hread hstat, hlen]

/-- C10 on a start snapshot that lists `vcpu1` before `vcpu0`. -/
theorem contiguous_names_visited_witness :
    (2 : Nat) ≤ 2 ^ 63 ∧
    (([("vcpu1", ⟨71, 1000⟩), ("vcpu0", ⟨70, 3000⟩)] : Snapshot).map Prod.fst).Perm
      ((List.range 2).map vcpuName) ∧
    (settledHost 300).readFile ("/m/machine-qemu-1.scope" ++ "/emulator/tasks") = some "4242\n" ∧
    (settledHost 300).procStat ("/proc/" ++ firstLine "4242\n") = ProcStat.age 300 ∧
    visited [("vcpu1", ⟨71, 1000⟩), ("vcpu0", ⟨70, 3000⟩)] = (List.range 2).map vcpuName ∧
    compareVcpuInfo (settledHost 300) "/m/machine-qemu-1.scope"
        [("vcpu1", ⟨71, 1000⟩), ("vcpu0", ⟨70, 3000⟩)]
        [("vcpu1", ⟨71, 1400⟩), ("vcpu0", ⟨70, 3050⟩)] (-1) 500 100 120
      = [Event.machine "machine-qemu-1.scope" 300 true,
          Event.panicLine "vcpu0" 50, Event.triggerPanic, Event.warnLine "vcpu1" 400] :=
  ⟨by decide, by decide, by decide, by decide,
    (contiguous_names_visited (settledHost 300) "/m/machine-qemu-1.scope"
      [("vcpu1", ⟨71, 1000⟩), ("vcpu0", ⟨70, 3000⟩)]
      [("vcpu1", ⟨71, 1400⟩), ("vcpu0", ⟨70, 3050⟩)] (-1) 500 100 120 "4242\n" 300 2
      (by decide) (by decide) (by decide) (by decide)).2.1,
    by decide⟩

end Vcpustat
